import Mathlib

/-!
Verification of the Pathway Property core specification against the
repository's code.

The central implemented artifact is `PropertyRiskScorer` (risk-scoring
aggregator) together with the frontend `PropertyInput` URL gate; both are
embedded here faithfully from the source.  Python floats are modelled as
rationals, and Python's `round(x, 1)` (round-half-to-even) is modelled
explicitly by `pyRound1`.  The gatekeeper rule engine, the document
chunking pipeline, and the retrieval/citation engine are declared in the
repository's design documents but have no implementation under the source
tree; those are modelled from the specification text, as marked in their
doc comments.
-/

/-- Round-half-to-even on rationals, the semantics of Python's `round`
applied to an integral target: nearest integer, ties to the even one. -/
def roundHalfEven (x : ℚ) : ℤ :=
  let n := ⌊x⌋
  let f := x - (n : ℚ)
  if f < 1/2 then n
  else if 1/2 < f then n + 1
  else if n % 2 = 0 then n else n + 1

/-- Python's `round(x, 1)`: round to one decimal place, ties to even. -/
def pyRound1 (x : ℚ) : ℚ := (roundHalfEven (10 * x) : ℚ) / 10

/-- Configuration of one risk category of `PropertyRiskScorer.RISK_WEIGHTS`:
its weight, its named factor weights, and the optional `applies_to`
property-type restriction. -/
structure CategoryConfig where
  weight : ℚ
  factors : List (String × ℚ)
  applies_to : Option (List String)
deriving DecidableEq

/-- Abstraction of the `all_analyses` dict consumed by
`PropertyRiskScorer.calculate_risk_score`: the property type, the factor
score lookup performed by `_get_factor_score` (whose body is not part of
the scorer's source), and the value computed by `_calculate_confidence`. -/
structure Analyses where
  property_type : Option String
  factor_score : String → String → ℚ
  confidence : ℚ

/-- One element of the `factor_details` list built per category. -/
structure FactorDetail where
  factor : String
  raw_score : ℚ
  weight : ℚ
  weighted_score : ℚ
deriving DecidableEq

/-- One entry of the `category_scores` dict: rounded score, category
weight, rounded weighted contribution and the factor details. -/
structure CategoryEntry where
  name : String
  score : ℚ
  weight : ℚ
  weighted_contribution : ℚ
  factors : List FactorDetail
deriving DecidableEq

/-- One element of the `top_risk_factors` list produced by
`PropertyRiskScorer._get_top_risks`. -/
structure TopFactor where
  category : String
  factor : String
  score : ℚ
  impact : ℚ
deriving DecidableEq

/-- The dict returned by `PropertyRiskScorer.calculate_risk_score`. -/
structure RiskScoreResult where
  overall_risk_score : ℚ
  risk_rating : String
  category_breakdown : List CategoryEntry
  top_risk_factors : List TopFactor
  confidence_level : ℚ
deriving DecidableEq

/-- The `legal` entry of `RISK_WEIGHTS`. -/
def legalConfig : CategoryConfig :=
  { weight := 0.25
    factors := [("caveat_risk", 0.20), ("covenant_impact", 0.15),
      ("easement_building_conflict", 0.15), ("section_32_completeness", 0.20),
      ("special_conditions_risk", 0.15), ("proprietor_mismatch", 0.15)]
    applies_to := none }

/-- The `title_encumbrance` entry of `RISK_WEIGHTS`. -/
def titleEncumbranceConfig : CategoryConfig :=
  { weight := 0.15
    factors := [("caveat_severity", 0.30), ("covenant_blocks_use", 0.30),
      ("section_173_obligations", 0.20), ("easement_extent", 0.20)]
    applies_to := none }

/-- The `planning` entry of `RISK_WEIGHTS`. -/
def planningConfig : CategoryConfig :=
  { weight := 0.15
    factors := [("development_potential_mismatch", 0.25), ("overlay_restrictions", 0.25),
      ("illegal_works_detected", 0.30), ("heritage_impact", 0.20)]
    applies_to := none }

/-- The `physical` entry of `RISK_WEIGHTS`. -/
def physicalConfig : CategoryConfig :=
  { weight := 0.15
    factors := [("structural_defects", 0.35), ("termite_risk", 0.20),
      ("asbestos_risk", 0.15), ("roof_condition", 0.15), ("illegal_works", 0.15)]
    applies_to := none }

/-- The `strata` entry of `RISK_WEIGHTS`, the only one carrying an
`applies_to` restriction. -/
def strataConfig : CategoryConfig :=
  { weight := 0.10
    factors := [("financial_health", 0.30), ("cladding_risk", 0.30),
      ("special_levy_history", 0.20), ("bylaw_conflicts", 0.20)]
    applies_to := some ["apartment", "townhouse", "unit"] }

/-- The `environmental` entry of `RISK_WEIGHTS`. -/
def environmentalConfig : CategoryConfig :=
  { weight := 0.10
    factors := [("flood_risk", 0.25), ("bushfire_risk", 0.25),
      ("contamination_risk", 0.25), ("flight_path", 0.15),
      ("social_housing_density", 0.10)]
    applies_to := none }

/-- The `financial` entry of `RISK_WEIGHTS`. -/
def financialConfig : CategoryConfig :=
  { weight := 0.10
    factors := [("price_vs_comparables", 0.40), ("yield_adequacy", 0.30),
      ("cash_flow_viability", 0.30)]
    applies_to := none }

/-- The `PropertyRiskScorer.RISK_WEIGHTS` class constant, in source order. -/
def RISK_WEIGHTS : List (String × CategoryConfig) :=
  [("legal", legalConfig), ("title_encumbrance", titleEncumbranceConfig),
   ("planning", planningConfig), ("physical", physicalConfig),
   ("strata", strataConfig), ("environmental", environmentalConfig),
   ("financial", financialConfig)]

/-- The applicability test used both by the category loop
(`if "applies_to" in config: if all_analyses.get("property_type") not in
config["applies_to"]: continue`) and by the `max_possible`
comprehension of `calculate_risk_score`. -/
def categoryApplies (pt : Option String) (cfg : CategoryConfig) : Bool :=
  match cfg.applies_to with
  | none => true
  | some allowed =>
    match pt with
    | none => false
    | some t => allowed.contains t

/-- The `factor_details` list accumulated for one category. -/
def factorDetails (a : Analyses) (cat : String) (factors : List (String × ℚ)) :
    List FactorDetail :=
  factors.map (fun fw =>
    { factor := fw.1
      raw_score := a.factor_score cat fw.1
      weight := fw.2
      weighted_score := a.factor_score cat fw.1 * fw.2 })

/-- The unrounded `category_score` accumulator: the sum of the
`weighted_score` values of the category's factors. -/
def categoryScore (a : Analyses) (cat : String) (factors : List (String × ℚ)) : ℚ :=
  ((factorDetails a cat factors).map (fun d => d.weighted_score)).sum

/-- Builds one `category_scores` entry exactly as the source does:
`score` and `weighted_contribution` are rounded to one decimal place,
the contribution being computed from the unrounded category score. -/
def mkCategoryEntry (a : Analyses) (nc : String × CategoryConfig) : CategoryEntry :=
  { name := nc.1
    score := pyRound1 (categoryScore a nc.1 nc.2.factors)
    weight := nc.2.weight
    weighted_contribution := pyRound1 (categoryScore a nc.1 nc.2.factors * nc.2.weight)
    factors := factorDetails a nc.1 nc.2.factors }

/-- The `category_scores` mapping of `calculate_risk_score`: one entry per
category of the weights table whose `applies_to` test passes. -/
def categoryEntries (weights : List (String × CategoryConfig)) (a : Analyses) :
    List CategoryEntry :=
  weights.filterMap (fun nc =>
    if categoryApplies a.property_type nc.2 then some (mkCategoryEntry a nc) else none)

/-- The `total_score` sum of all weighted contributions. -/
def totalScore (weights : List (String × CategoryConfig)) (a : Analyses) : ℚ :=
  ((categoryEntries weights a).map (fun e => e.weighted_contribution)).sum

/-- The `max_possible` normalizer: the sum of `weight * 100` over the
applicable categories. -/
def maxPossible (weights : List (String × CategoryConfig)) (pt : Option String) : ℚ :=
  ((weights.filter (fun nc => categoryApplies pt nc.2)).map
    (fun nc => nc.2.weight * 100)).sum

/-- The sum of the applicable category weights themselves (the
denominator of the specification's formula); `maxPossible` is this sum
scaled by 100. -/
def sumApplicableWeights (weights : List (String × CategoryConfig)) (pt : Option String) : ℚ :=
  ((weights.filter (fun nc => categoryApplies pt nc.2)).map (fun nc => nc.2.weight)).sum

/-- The `normalized_score` value:
`(total_score / max_possible) * 100 if max_possible > 0 else 50`. -/
def normalizedScore (weights : List (String × CategoryConfig)) (a : Analyses) : ℚ :=
  if 0 < maxPossible weights a.property_type then
    totalScore weights a / maxPossible weights a.property_type * 100
  else 50

/-- `PropertyRiskScorer._score_to_rating`. -/
def score_to_rating (score : ℚ) : String :=
  if score < 20 then "LOW"
  else if score < 40 then "MODERATE"
  else if score < 60 then "ELEVATED"
  else if score < 80 then "HIGH"
  else "CRITICAL"

/-- The flat list built by `PropertyRiskScorer._get_top_risks` before
sorting: every factor of every category entry, carrying the raw score as
`score` and the weighted score as `impact`. -/
def allTopFactors (entries : List CategoryEntry) : List TopFactor :=
  (entries.map (fun e => e.factors.map (fun f =>
    { category := e.name, factor := f.factor,
      score := f.raw_score, impact := f.weighted_score : TopFactor }))).flatten

/-- The comparison used by `sorted(all_factors, key=lambda x: x["score"],
reverse=True)`: descending by the raw `score` field. -/
def scoreGe (x y : TopFactor) : Prop := y.score ≤ x.score

instance : DecidableRel scoreGe := fun x y => inferInstanceAs (Decidable (y.score ≤ x.score))

instance : IsTotal TopFactor scoreGe := ⟨fun x y => le_total y.score x.score⟩

instance : IsTrans TopFactor scoreGe := ⟨fun _ _ _ hxy hyz => le_trans hyz hxy⟩

/-- `PropertyRiskScorer._get_top_risks`: stable descending sort of all
factors by the raw `score` field, truncated to `n` (Python's `sorted` is
stable, and `reverse=True` keeps the original order among equal keys,
which `List.insertionSort` with this relation reproduces). -/
def get_top_risks (entries : List CategoryEntry) (n : ℕ) : List TopFactor :=
  (List.insertionSort scoreGe (allTopFactors entries)).take n

/-- `PropertyRiskScorer.calculate_risk_score`, parameterized by the
weights table (a class constant in the source). -/
def calculateRiskScoreWith (weights : List (String × CategoryConfig)) (a : Analyses) :
    RiskScoreResult :=
  { overall_risk_score := pyRound1 (normalizedScore weights a)
    risk_rating := score_to_rating (normalizedScore weights a)
    category_breakdown := categoryEntries weights a
    top_risk_factors := get_top_risks (categoryEntries weights a) 5
    confidence_level := a.confidence }

/-- `PropertyRiskScorer.calculate_risk_score` with the class constant
`RISK_WEIGHTS`. -/
def calculate_risk_score (a : Analyses) : RiskScoreResult :=
  calculateRiskScoreWith RISK_WEIGHTS a

/-- Severity levels of gatekeeper rules. -/
inductive Severity where
  | PASS
  | WARNING
  | FAIL
  | KILL
deriving DecidableEq

/-- Gatekeeper verdicts. -/
inductive Verdict where
  | PROCEED
  | REVIEW
  | REJECT
deriving DecidableEq

/-- Value carried by a fact: a measurement, a category, or a boolean. -/
inductive FactValue where
  | boolV (b : Bool)
  | numV (q : ℚ)
  | catV (s : String)
deriving DecidableEq

/-- Modelled from the spec: a typed fact record scoped to one property
(the Fact Provider Adapter and its `Fact` record are not present in the
source tree). -/
structure GFact where
  key : String
  value : FactValue
  confidence : ℚ

/-- Modelled from the spec: a declarative gatekeeper rule — a pure
predicate over the fact set plus severity and message metadata (the
gatekeeper rule engine is not present in the source tree). -/
structure GRule where
  id : String
  category : String
  pred : List GFact → Bool
  severity : Severity
  message : String

/-- Modelled from the spec: one itemized check result of the gatekeeper. -/
structure CheckResult where
  category : String
  score : Severity
  detail : String

/-- Modelled from the spec: the gatekeeper's result record with verdict,
itemized checks and kill reasons. -/
structure GatekeeperResult where
  verdict : Verdict
  checks : List CheckResult
  kill_reasons : List String

/-- Modelled from the spec: `evaluate(facts) → GatekeeperResult`
(the gatekeeper rule engine is not implemented in the source tree).
Verdict derivation per the spec: if any rule fires with severity KILL the
verdict is REJECT and its message is appended to `kill_reasons`; else if
any rule fires WARNING the verdict is REVIEW; else PROCEED. -/
def evaluate (rules : List GRule) (facts : List GFact) : GatekeeperResult :=
  let fired := rules.filter (fun r => r.pred facts)
  { verdict :=
      if fired.any (fun r => r.severity == Severity.KILL) then Verdict.REJECT
      else if fired.any (fun r => r.severity == Severity.WARNING) then Verdict.REVIEW
      else Verdict.PROCEED
    checks := rules.map (fun r =>
      { category := r.category
        score := if r.pred facts then r.severity else Severity.PASS
        detail := r.message })
    kill_reasons := (fired.filter (fun r => r.severity == Severity.KILL)).map
      (fun r => r.message) }

/-- Modelled from the spec: detection of a structural marker line
(heading or numbered clause) of the document chunker (the document
pipeline is not present in the source tree); the round-trip property is
independent of this predicate's exact content. -/
def isStructuralMarker (l : String) : Bool :=
  l.startsWith "#" || l.toList.head?.elim false Char.isDigit

/-- Whether a parsed unit begins a new structural unit, i.e. starts with
a structural marker line. -/
def unitStartsNew (u : List String) : Bool :=
  match u with
  | [] => true
  | s :: _ => isStructuralMarker s

/-- Modelled from the spec: parse the page's lines into structural units;
every structural marker line starts a new unit and any leading non-marker
lines form an initial unit, so the units partition the page text. -/
def parseUnits : List String → List (List String)
  | [] => []
  | l :: ls =>
    match parseUnits ls with
    | [] => [[l]]
    | u :: us => if unitStartsNew u then [l] :: u :: us else (l :: u) :: us

/-- Token count of one line of text (a token-budget proxy: characters). -/
def lineTokens (s : String) : ℕ := s.length

/-- Token count of a structural unit. -/
def unitTokens (u : List String) : ℕ := (u.map lineTokens).sum

/-- Modelled from the spec: fallback splitting of a unit that exceeds the
budget alone — greedily accumulate its sentences (lines) into pieces not
exceeding the budget, a lone oversized sentence forming its own piece. -/
def splitAux (budget : ℕ) : List String → List String → List (List String)
  | cur, [] => if cur.isEmpty then [] else [cur]
  | cur, l :: ls =>
    if cur.isEmpty then splitAux budget [l] ls
    else if unitTokens (cur ++ [l]) ≤ budget then splitAux budget (cur ++ [l]) ls
    else cur :: splitAux budget [l] ls

/-- Splits one oversized structural unit at sentence boundaries. -/
def splitUnit (budget : ℕ) (u : List String) : List (List String) :=
  splitAux budget [] u

/-- A document chunk: its text lines, whether it came from splitting an
oversized unit, and its page number. -/
structure Chunk where
  text : List String
  split : Bool
  page : ℕ

/-- Modelled from the spec: greedy accumulation of structural units into
chunks up to the token budget; a unit that fits whole is never split, a
unit exceeding the budget alone is split at sentence boundaries with the
resulting chunks tagged `split := true`. -/
def chunkAux (budget : ℕ) : List String → List (List String) → List Chunk
  | cur, [] => if cur.isEmpty then [] else [{ text := cur, split := false, page := 0 }]
  | cur, u :: us =>
    if budget < unitTokens u then
      (if cur.isEmpty then [] else [{ text := cur, split := false, page := 0 }])
        ++ (splitUnit budget u).map (fun p => { text := p, split := true, page := 0 })
        ++ chunkAux budget [] us
    else if cur.isEmpty then chunkAux budget u us
    else if unitTokens (cur ++ u) ≤ budget then chunkAux budget (cur ++ u) us
    else { text := cur, split := false, page := 0 } :: chunkAux budget u us

/-- Chunks one page: parse its structural units, then pack them. -/
def chunkPage (budget : ℕ) (page : List String) : List Chunk :=
  chunkAux budget [] (parseUnits page)

/-- Modelled from the spec: `ingest(document_id, raw_pages) → ChunkSet` —
chunk each page in order, stamping page numbers; the resulting list order
is the chunk ordinal order. -/
def ingest (budget : ℕ) (pageNum : ℕ) : List (List String) → List Chunk
  | [] => []
  | pg :: pgs =>
    (chunkPage budget pg).map (fun c => { c with page := pageNum })
      ++ ingest budget (pageNum + 1) pgs

/-- The sentinel answer text of the retrieval engine. -/
def NOT_FOUND : String := "NOT_FOUND"

/-- Modelled from the spec: a retrievable chunk reference of the
retrieval/citation engine. -/
structure RChunk where
  id : ℕ
  page : ℕ
  text : String
deriving DecidableEq

/-- Modelled from the spec: the answer record of the retrieval engine,
with text, `{chunk_id, page}` citations and a confidence. -/
structure Answer where
  text : String
  citations : List (ℕ × ℕ)
  confidence : ℚ

/-- Modelled from the spec: what `query` hands back — the answer plus the
data-quality flag raised when a citation-free answer had to be rejected. -/
structure QueryResult where
  answer : Answer
  data_quality_error : Bool

/-- Modelled from the spec: the post-processing step of `query` (the
retrieval/citation engine is not present in the source tree).  The LLM
collaborator is an abstract function of the question and the retrieved
chunks; an answer that is not the NOT_FOUND sentinel yet carries zero
citations while chunks were retrieved is rejected as a data-quality error
and replaced by the sentinel, never returned as a usable result. -/
def runQuery (llm : String → List RChunk → Answer) (retrieved : List RChunk)
    (question : String) : QueryResult :=
  let a := llm question retrieved
  if retrieved ≠ [] ∧ a.text ≠ NOT_FOUND ∧ a.citations = [] then
    { answer := { text := NOT_FOUND, citations := [], confidence := 0 }
      data_quality_error := true }
  else
    { answer := a, data_quality_error := false }

/-- Whether the character list `pat` occurs at the head of `s`. -/
def startsWithList : List Char → List Char → Bool
  | _, [] => true
  | [], _ :: _ => false
  | a :: s, b :: p => a == b && startsWithList s p

/-- Whether the character list `pat` occurs as a contiguous substring of
`s`; this is the semantics of JavaScript's `String.prototype.includes`. -/
def hasSubstring : List Char → List Char → Bool
  | s, pat =>
    startsWithList s pat ||
      (match s with
       | [] => false
       | _ :: t => hasSubstring t pat)

/-- JavaScript `url.includes(pat)` on Lean strings. -/
def strIncludes (s pat : String) : Bool := hasSubstring s.toList pat.toList

/-- The `isValidUrl` constant of `PropertyInput`:
`url.includes('domain.com.au') || url.includes('realestate.com.au')`. -/
def isValidUrl (url : String) : Bool :=
  strIncludes url "domain.com.au" || strIncludes url "realestate.com.au"

/-- The `disabled` prop of the Analyze submit button of `PropertyInput`:
`!isValidUrl || scrapeMutation.isPending`. -/
def analyzeButtonDisabled (url : String) (isPending : Bool) : Bool :=
  !isValidUrl url || isPending

/-- An analyses record for a house with all factor scores zero. -/
def houseAnalyses : Analyses :=
  { property_type := some "house", factor_score := fun _ _ => 0, confidence := 1 }

/-- Concrete analyses input for the top-factors selection question: five
legal factors at raw score 1 (small weights) and the heavily weighted
financial comparables factor at raw score 9/10. -/
def topFactorsInput : Analyses :=
  { property_type := some "house"
    factor_score := fun c f =>
      if c = "legal" then (if f = "proprietor_mismatch" then 0 else 1)
      else if c = "financial" ∧ f = "price_vs_comparables" then 9/10
      else 0
    confidence := 1 }

/-- Concrete analyses input whose only nonzero factor score is
`legal.caveat_risk = 33`, chosen so that the per-category rounding of the
weighted contribution is visible in the overall score. -/
def roundingInput : Analyses :=
  { property_type := some "house"
    factor_score := fun c f => if c = "legal" ∧ f = "caveat_risk" then 33 else 0
    confidence := 1 }

/-- A KILL-severity gatekeeper rule firing on a true flood overlay fact. -/
def floodRule : GRule :=
  { id := "flood"
    category := "environmental"
    pred := fun fs => fs.any (fun f =>
      f.key == "flood_overlay" && f.value == FactValue.boolV true)
    severity := Severity.KILL
    message := "flood risk" }

/-- A KILL-severity gatekeeper rule firing on an ANEF measurement above 20. -/
def anefRule : GRule :=
  { id := "anef"
    category := "noise"
    pred := fun fs => fs.any (fun f =>
      f.key == "anef" &&
        (match f.value with
         | FactValue.numV q => decide (20 < q)
         | _ => false))
    severity := Severity.KILL
    message := "flight path noise" }

/-- The fact set of the spec's scenario: a true flood overlay at full
confidence and an ANEF measurement of 12. -/
def scenarioFacts : List GFact :=
  [{ key := "flood_overlay", value := FactValue.boolV true, confidence := 1 },
   { key := "anef", value := FactValue.numV 12, confidence := 1 }]

/-- An LLM collaborator that answers without citing: the degenerate case
the citation invariant must reject. -/
def badLLM : String → List RChunk → Answer :=
  fun _ _ => { text := "yes", citations := [], confidence := 1 }

/-- A single retrieved chunk. -/
def chunk0 : RChunk := { id := 1, page := 4, text := "easement applies" }

theorem length_dropWhile_le {α : Type} (p : α → Bool) (l : List α) :
    (l.dropWhile p).length ≤ l.length := by
  induction l with
  | nil => simp [List.dropWhile]
  | cons a t ih =>
    by_cases h : p a
    · simp only [List.dropWhile, h]
      exact le_trans ih (Nat.le_succ _)
    · simp [List.dropWhile, h]

theorem maxPossible_eq (weights : List (String × CategoryConfig)) (pt : Option String) :
    maxPossible weights pt = sumApplicableWeights weights pt * 100 := by
  unfold maxPossible sumApplicableWeights
  induction (weights.filter (fun nc => categoryApplies pt nc.2)) with
  | nil => simp
  | cons nc l ih => simp [ih]; ring

theorem categoryEntries_eq (weights : List (String × CategoryConfig)) (a : Analyses) :
    categoryEntries weights a =
      (weights.filter (fun nc => categoryApplies a.property_type nc.2)).map
        (mkCategoryEntry a) := by
  unfold categoryEntries
  induction weights with
  | nil => rfl
  | cons nc l ih =>
    by_cases h : categoryApplies a.property_type nc.2
    · simp [List.filterMap_cons, List.filter_cons, h, ih]
    · simp [List.filterMap_cons, List.filter_cons, h, ih]

/-- Claim C1: for every fact set containing at least one rule that fires
with KILL severity, the gatekeeper's evaluate returns verdict REJECT,
regardless of any PASS or WARNING results in other categories. -/
theorem gatekeeper_kill_dominates (rules : List GRule) (facts : List GFact)
    (r : GRule) (hr : r ∈ rules) (hp : r.pred facts = true)
    (hk : r.severity = Severity.KILL) :
    (evaluate rules facts).verdict = Verdict.REJECT := by
  have hany : (rules.filter (fun r => r.pred facts)).any
      (fun r => r.severity == Severity.KILL) = true := by
    rw [List.any_eq_true]
    exact ⟨r, List.mem_filter.2 ⟨hr, hp⟩, by rw [hk]; rfl⟩
  simp [evaluate, hany]

/-- Witness for C1: the spec's scenario — a firing flood KILL rule next to
a non-firing ANEF rule yields REJECT. -/
theorem gatekeeper_kill_dominates_witness :
    floodRule ∈ [floodRule, anefRule] ∧
    floodRule.pred scenarioFacts = true ∧
    floodRule.severity = Severity.KILL ∧
    (evaluate [floodRule, anefRule] scenarioFacts).verdict = Verdict.REJECT :=
  ⟨List.mem_cons_self _ _, by decide, rfl,
    gatekeeper_kill_dominates [floodRule, anefRule] scenarioFacts floodRule
      (List.mem_cons_self _ _) (by decide) rfl⟩

/-- Claim C2: a category inapplicable to the property type is excluded
from both the numerator and the denominator of the composite score — the
result is identical to aggregating with that category's weights-table
entry absent altogether, never treated as a zero score. -/
theorem category_exclusion_identical (a : Analyses)
    (w1 w2 : List (String × CategoryConfig)) (name : String)
    (cfg : CategoryConfig) (allowed : List String)
    (h1 : cfg.applies_to = some allowed)
    (h2 : ∀ t, a.property_type = some t → allowed.contains t = false) :
    calculateRiskScoreWith (w1 ++ (name, cfg) :: w2) a =
      calculateRiskScoreWith (w1 ++ w2) a := by
  have hcat : categoryApplies a.property_type cfg = false := by
    unfold categoryApplies
    rw [h1]
    cases hpt : a.property_type with
    | none => rfl
    | some t => exact h2 t hpt
  have hent : categoryEntries (w1 ++ (name, cfg) :: w2) a = categoryEntries (w1 ++ w2) a := by
    simp [categoryEntries, List.filterMap_append, List.filterMap_cons, hcat]
  have hmax : maxPossible (w1 ++ (name, cfg) :: w2) a.property_type =
      maxPossible (w1 ++ w2) a.property_type := by
    simp [maxPossible, List.filter_append, List.filter_cons, hcat]
  simp [calculateRiskScoreWith, normalizedScore, totalScore, hent, hmax]

/-- Witness for C2: dropping the strata entry of RISK_WEIGHTS changes
nothing for a house. -/
theorem category_exclusion_identical_witness :
    strataConfig.applies_to = some ["apartment", "townhouse", "unit"] ∧
    calculateRiskScoreWith
        ([("legal", legalConfig), ("title_encumbrance", titleEncumbranceConfig),
          ("planning", planningConfig), ("physical", physicalConfig)] ++
          ("strata", strataConfig) ::
          [("environmental", environmentalConfig), ("financial", financialConfig)])
        houseAnalyses =
      calculateRiskScoreWith
        ([("legal", legalConfig), ("title_encumbrance", titleEncumbranceConfig),
          ("planning", planningConfig), ("physical", physicalConfig)] ++
          [("environmental", environmentalConfig), ("financial", financialConfig)])
        houseAnalyses :=
  ⟨rfl, category_exclusion_identical houseAnalyses _ _ "strata" strataConfig
    ["apartment", "townhouse", "unit"] rfl
    (by intro t ht; simp [houseAnalyses] at ht; subst ht; decide)⟩

/-- Claim C5: the rating bands of the aggregator are LOW below 20,
MODERATE on [20,40), ELEVATED on [40,60), HIGH on [60,80) and CRITICAL
from 80 on. -/
theorem rating_bands (s : ℚ) (_h0 : 0 ≤ s) (_h100 : s ≤ 100) :
    (s < 20 → score_to_rating s = "LOW") ∧
    (20 ≤ s ∧ s < 40 → score_to_rating s = "MODERATE") ∧
    (40 ≤ s ∧ s < 60 → score_to_rating s = "ELEVATED") ∧
    (60 ≤ s ∧ s < 80 → score_to_rating s = "HIGH") ∧
    (80 ≤ s → score_to_rating s = "CRITICAL") := by
  unfold score_to_rating
  refine ⟨fun h => ?_, fun h => ?_, fun h => ?_, fun h => ?_, fun h => ?_⟩
  · rw [if_pos h]
  · rw [if_neg (by linarith [h.1]), if_pos h.2]
  · rw [if_neg (by linarith [h.1]), if_neg (by linarith [h.1]), if_pos h.2]
  · rw [if_neg (by linarith [h.1]), if_neg (by linarith [h.1]),
      if_neg (by linarith [h.1]), if_pos h.2]
  · rw [if_neg (by linarith), if_neg (by linarith), if_neg (by linarith),
      if_neg (by linarith)]

/-- Witness for C5: a score of 30 rates MODERATE. -/
theorem rating_bands_witness :
    (0 : ℚ) ≤ 30 ∧ (30 : ℚ) ≤ 100 ∧ score_to_rating 30 = "MODERATE" :=
  ⟨by norm_num, by norm_num,
    (rating_bands 30 (by norm_num) (by norm_num)).2.1 ⟨by norm_num, by norm_num⟩⟩

/-- Claim C6: aggregation is deterministic — identical inputs produce
identical CompositeScore outputs (the embedded scorer is a pure function
of its input; the source performs no I/O and uses no randomness). -/
theorem aggregate_deterministic (a b : Analyses) (h : a = b) :
    calculate_risk_score a = calculate_risk_score b := by rw [h]

/-- Witness for C6: the aggregator applied twice to the house input. -/
theorem aggregate_deterministic_witness :
    calculate_risk_score houseAnalyses = calculate_risk_score houseAnalyses :=
  aggregate_deterministic houseAnalyses houseAnalyses rfl

/-- Claim C8: when at least one chunk was retrieved, `query` never returns
an answer that differs from the NOT_FOUND sentinel yet has zero citations;
a citation-free answer in that situation is flagged as a data-quality
error instead of being returned as usable. -/
theorem citation_invariant (llm : String → List RChunk → Answer)
    (retrieved : List RChunk) (q : String) (h : retrieved ≠ []) :
    ((runQuery llm retrieved q).answer.text ≠ NOT_FOUND →
      (runQuery llm retrieved q).answer.citations ≠ []) ∧
    ((llm q retrieved).text ≠ NOT_FOUND → (llm q retrieved).citations = [] →
      (runQuery llm retrieved q).data_quality_error = true) := by
  unfold runQuery
  by_cases hguard : retrieved ≠ [] ∧ (llm q retrieved).text ≠ NOT_FOUND ∧
      (llm q retrieved).citations = []
  · rw [if_pos hguard]
    exact ⟨fun hT => absurd rfl hT, fun _ _ => rfl⟩
  · rw [if_neg hguard]
    exact ⟨fun hT hC => absurd ⟨h, hT, hC⟩ hguard,
      fun hT hC => absurd ⟨h, hT, hC⟩ hguard⟩

/-- Witness for C8: a citation-free non-sentinel answer over one retrieved
chunk raises the data-quality flag. -/
theorem citation_invariant_witness :
    [chunk0] ≠ ([] : List RChunk) ∧
    (runQuery badLLM [chunk0] "q").data_quality_error = true :=
  ⟨by simp,
    (citation_invariant badLLM [chunk0] "q" (by simp)).2 (by decide) rfl⟩

/-- Claim C9: when the sum of applicable category weights is zero the
aggregator does not divide by zero — it returns an overall score of
exactly 50, which rates ELEVATED. -/
theorem zero_weight_no_div (weights : List (String × CategoryConfig)) (a : Analyses)
    (h : sumApplicableWeights weights a.property_type = 0) :
    (calculateRiskScoreWith weights a).overall_risk_score = 50 ∧
    (calculateRiskScoreWith weights a).risk_rating = "ELEVATED" := by
  have hmax : maxPossible weights a.property_type = 0 := by
    rw [maxPossible_eq, h, zero_mul]
  have hns : normalizedScore weights a = 50 := by simp [normalizedScore, hmax]
  constructor
  · show pyRound1 (normalizedScore weights a) = 50
    rw [hns]
    norm_num [pyRound1, roundHalfEven]
  · show score_to_rating (normalizedScore weights a) = "ELEVATED"
    rw [hns]
    norm_num [score_to_rating]

/-- Witness for C9: the empty weights table has applicable weight sum zero
and yields 50 / ELEVATED. -/
theorem zero_weight_no_div_witness :
    sumApplicableWeights [] houseAnalyses.property_type = 0 ∧
    (calculateRiskScoreWith [] houseAnalyses).overall_risk_score = 50 ∧
    (calculateRiskScoreWith [] houseAnalyses).risk_rating = "ELEVATED" :=
  ⟨by simp [sumApplicableWeights],
    (zero_weight_no_div [] houseAnalyses (by simp [sumApplicableWeights])).1,
    (zero_weight_no_div [] houseAnalyses (by simp [sumApplicableWeights])).2⟩

/-- Claim C10: for every URL containing neither "domain.com.au" nor
"realestate.com.au" as a substring, the property-input form's Analyze
submit button is disabled. -/
theorem url_gate_disabled (url : String) (pending : Bool)
    (h1 : strIncludes url "domain.com.au" = false)
    (h2 : strIncludes url "realestate.com.au" = false) :
    analyzeButtonDisabled url pending = true := by
  simp [analyzeButtonDisabled, isValidUrl, h1, h2]

/-- Witness for C10: a URL from neither portal leaves the button disabled. -/
theorem url_gate_disabled_witness :
    strIncludes "https://example.com/listing/123" "domain.com.au" = false ∧
    strIncludes "https://example.com/listing/123" "realestate.com.au" = false ∧
    analyzeButtonDisabled "https://example.com/listing/123" false = true :=
  ⟨by decide, by decide,
    url_gate_disabled "https://example.com/listing/123" false (by decide) (by decide)⟩

theorem parseUnits_flatten (ls : List String) : (parseUnits ls).flatten = ls := by
  induction ls with
  | nil => rfl
  | cons l ls ih =>
    simp only [parseUnits]
    cases h : parseUnits ls with
    | nil =>
      rw [h] at ih
      simp at ih
      simp [← ih]
    | cons u us =>
      rw [h] at ih
      by_cases hm : unitStartsNew u
      · simp [hm, ← ih]
      · simp [hm, ← ih]

theorem splitAux_flatten (budget : ℕ) (cur ls : List String) :
    (splitAux budget cur ls).flatten = cur ++ ls := by
  induction ls generalizing cur with
  | nil =>
    cases cur with
    | nil => simp [splitAux]
    | cons c cs => simp [splitAux]
  | cons l ls ih =>
    simp only [splitAux]
    by_cases h1 : cur.isEmpty
    · rw [if_pos h1, ih]
      simp [List.isEmpty_iff.mp h1]
    · rw [if_neg h1]
      by_cases h2 : unitTokens (cur ++ [l]) ≤ budget
      · rw [if_pos h2, ih]
        simp
      · rw [if_neg h2]
        simp [ih]

theorem chunkAux_flatten (budget : ℕ) (cur : List String) (units : List (List String)) :
    ((chunkAux budget cur units).map Chunk.text).flatten = cur ++ units.flatten := by
  induction units generalizing cur with
  | nil =>
    cases cur with
    | nil => simp [chunkAux]
    | cons c cs => simp [chunkAux]
  | cons u us ih =>
    simp only [chunkAux]
    by_cases h1 : budget < unitTokens u
    · rw [if_pos h1]
      have htag : (List.map (Chunk.text ∘ fun p =>
          ({ text := p, split := true, page := 0 } : Chunk)) (splitAux budget [] u)).flatten
          = u := by
        rw [show (Chunk.text ∘ fun p => ({ text := p, split := true, page := 0 } : Chunk))
          = id from rfl, List.map_id]
        simpa using splitAux_flatten budget [] u
      by_cases hc : cur.isEmpty
      · rw [if_pos hc]
        simp [ih, splitUnit, List.isEmpty_iff.mp hc, List.map_map, htag]
      · rw [if_neg hc]
        simp [ih, splitUnit, List.map_map, htag]
    · rw [if_neg h1]
      by_cases hc : cur.isEmpty
      · rw [if_pos hc, ih]
        simp [List.isEmpty_iff.mp hc]
      · rw [if_neg hc]
        by_cases h3 : unitTokens (cur ++ u) ≤ budget
        · rw [if_pos h3, ih]
          simp
        · rw [if_neg h3]
          simp [ih]

theorem chunkPage_flatten (budget : ℕ) (page : List String) :
    ((chunkPage budget page).map Chunk.text).flatten = page := by
  rw [chunkPage, chunkAux_flatten]
  simp [parseUnits_flatten]

theorem ingest_flatten (budget pageNum : ℕ) (pages : List (List String)) :
    ((ingest budget pageNum pages).map Chunk.text).flatten = pages.flatten := by
  induction pages generalizing pageNum with
  | nil => rfl
  | cons pg pgs ih =>
    simp only [ingest, List.map_append, List.flatten_append, List.map_map]
    rw [ih]
    have : (Chunk.text ∘ fun c => { c with page := pageNum }) = Chunk.text := by
      funext c
      rfl
    rw [this, chunkPage_flatten]
    simp

/-- Claim C7: concatenating the text of all chunks produced by ingest, in
ordinal order (the split tag is metadata, no marker text is injected),
reconstructs the original page text of the document exactly. -/
theorem chunking_round_trip (budget : ℕ) (pages : List (List String)) :
    ((ingest budget 1 pages).map Chunk.text).flatten = pages.flatten :=
  ingest_flatten budget 1 pages

/-- Amended claim C3: `top_factors` consists of the N factors with the
highest raw score (ties kept in original order), not the N highest
`raw_score × weight` contributions: every selected factor's raw score
dominates every unselected factor's raw score, while the contribution
(`impact`) is merely reported alongside. -/
theorem top_factors_by_raw_score (entries : List CategoryEntry) (n : ℕ) :
    ∃ rest : List TopFactor,
      (allTopFactors entries).Perm (get_top_risks entries n ++ rest) ∧
      ∀ x ∈ get_top_risks entries n, ∀ y ∈ rest, y.score ≤ x.score := by
  refine ⟨(List.insertionSort scoreGe (allTopFactors entries)).drop n, ?_, ?_⟩
  · rw [get_top_risks, List.take_append_drop]
    exact (List.perm_insertionSort scoreGe (allTopFactors entries)).symm
  · intro x hx y hy
    rw [get_top_risks] at hx
    exact (List.sorted_insertionSort scoreGe
      (allTopFactors entries)).rel_of_mem_take_of_mem_drop hx hy

/-- Counterexample to claim C3 as stated: on `topFactorsInput` the
financial comparables factor has contribution 9/25 yet is not selected,
while the selected legal covenant factor has the smaller contribution
3/20 — so selection is not by the `raw_score × weight` contribution. -/
theorem top_factors_impact_cex :
    (⟨"financial", "price_vs_comparables", 9/10, 9/25⟩ : TopFactor) ∈
        allTopFactors (categoryEntries RISK_WEIGHTS topFactorsInput) ∧
    (⟨"financial", "price_vs_comparables", 9/10, 9/25⟩ : TopFactor) ∉
        (calculate_risk_score topFactorsInput).top_risk_factors ∧
    (⟨"legal", "covenant_impact", 1, 3/20⟩ : TopFactor) ∈
        (calculate_risk_score topFactorsInput).top_risk_factors ∧
    (3/20 : ℚ) < 9/25 := by
  have hstrata : categoryApplies (some "house") strataConfig = false := by decide
  refine ⟨?_, ?_, ?_, by norm_num⟩
  · simp [allTopFactors, categoryEntries, RISK_WEIGHTS, legalConfig,
      titleEncumbranceConfig, planningConfig, physicalConfig, strataConfig,
      environmentalConfig, financialConfig, categoryApplies, mkCategoryEntry,
      categoryScore, factorDetails, topFactorsInput, hstrata]
    norm_num
  · simp [calculate_risk_score, calculateRiskScoreWith, get_top_risks,
      allTopFactors, categoryEntries, RISK_WEIGHTS, legalConfig,
      titleEncumbranceConfig, planningConfig, physicalConfig, strataConfig,
      environmentalConfig, financialConfig, categoryApplies, mkCategoryEntry,
      categoryScore, factorDetails, topFactorsInput, hstrata,
      List.insertionSort, List.orderedInsert, scoreGe]
    norm_num [List.orderedInsert, scoreGe, List.take]
  · simp [calculate_risk_score, calculateRiskScoreWith, get_top_risks,
      allTopFactors, categoryEntries, RISK_WEIGHTS, legalConfig,
      titleEncumbranceConfig, planningConfig, physicalConfig, strataConfig,
      environmentalConfig, financialConfig, categoryApplies, mkCategoryEntry,
      categoryScore, factorDetails, topFactorsInput, hstrata,
      List.insertionSort, List.orderedInsert, scoreGe]
    norm_num [List.orderedInsert, scoreGe, List.take]

/-- Amended claim C4: for every factor set with positive applicable
weight, the overall score equals the spec's weighted mean
`Σ(category_score × category_weight) / Σ(category_weight present)` up to
rounding — each category contribution is rounded to one decimal place
before summing, and the result is rounded to one decimal place. -/
theorem overall_weighted_mean_rounded (a : Analyses)
    (h : 0 < sumApplicableWeights RISK_WEIGHTS a.property_type) :
    (calculate_risk_score a).overall_risk_score =
      pyRound1
        ((((RISK_WEIGHTS.filter (fun nc => categoryApplies a.property_type nc.2)).map
            (fun nc => pyRound1 (categoryScore a nc.1 nc.2.factors * nc.2.weight))).sum) /
          sumApplicableWeights RISK_WEIGHTS a.property_type) := by
  have hS : sumApplicableWeights RISK_WEIGHTS a.property_type ≠ 0 := ne_of_gt h
  have hmaxpos : 0 < maxPossible RISK_WEIGHTS a.property_type := by
    rw [maxPossible_eq]
    exact mul_pos h (by norm_num)
  have htot : totalScore RISK_WEIGHTS a =
      ((RISK_WEIGHTS.filter (fun nc => categoryApplies a.property_type nc.2)).map
        (fun nc => pyRound1 (categoryScore a nc.1 nc.2.factors * nc.2.weight))).sum := by
    rw [totalScore, categoryEntries_eq, List.map_map]
    rfl
  show pyRound1 (normalizedScore RISK_WEIGHTS a) = _
  rw [normalizedScore, if_pos hmaxpos, htot, maxPossible_eq]
  congr 1
  field_simp
  ring

/-- Witness for the amended C4 at the concrete rounding input. -/
theorem overall_weighted_mean_rounded_witness :
    0 < sumApplicableWeights RISK_WEIGHTS roundingInput.property_type ∧
    (calculate_risk_score roundingInput).overall_risk_score =
      pyRound1
        ((((RISK_WEIGHTS.filter (fun nc => categoryApplies roundingInput.property_type nc.2)).map
            (fun nc => pyRound1 (categoryScore roundingInput nc.1 nc.2.factors * nc.2.weight))).sum) /
          sumApplicableWeights RISK_WEIGHTS roundingInput.property_type) := by
  have hstrata : categoryApplies (some "house") strataConfig = false := by decide
  have hpos : 0 < sumApplicableWeights RISK_WEIGHTS roundingInput.property_type := by
    simp [sumApplicableWeights, RISK_WEIGHTS, legalConfig, titleEncumbranceConfig,
      planningConfig, physicalConfig, strataConfig, environmentalConfig,
      financialConfig, categoryApplies, roundingInput, hstrata]
    norm_num
  exact ⟨hpos, overall_weighted_mean_rounded roundingInput hpos⟩

/-- Counterexample to claim C4 as stated: at `roundingInput` the code's
overall score is 9/5 = 1.8, while the exact weighted mean
`Σ(category_score × category_weight) / Σ(category_weight present)` is
11/6 = 1.8333…, so the two differ (the code rounds each category
contribution and the final score to one decimal place). -/
theorem overall_formula_cex :
    (calculate_risk_score roundingInput).overall_risk_score = 9/5 ∧
    (((RISK_WEIGHTS.filter (fun nc => categoryApplies roundingInput.property_type nc.2)).map
        (fun nc => categoryScore roundingInput nc.1 nc.2.factors * nc.2.weight)).sum /
      sumApplicableWeights RISK_WEIGHTS roundingInput.property_type) = 11/6 ∧
    (9/5 : ℚ) ≠ 11/6 := by
  have hstrata : categoryApplies (some "house") strataConfig = false := by decide
  refine ⟨?_, ?_, by norm_num⟩
  · simp [calculate_risk_score, calculateRiskScoreWith, normalizedScore, totalScore,
      maxPossible, categoryEntries, RISK_WEIGHTS, legalConfig, titleEncumbranceConfig,
      planningConfig, physicalConfig, strataConfig, environmentalConfig,
      financialConfig, categoryApplies, mkCategoryEntry, categoryScore,
      factorDetails, roundingInput, hstrata, pyRound1, roundHalfEven]
    norm_num [Int.fract]
  · simp [sumApplicableWeights, RISK_WEIGHTS, legalConfig, titleEncumbranceConfig,
      planningConfig, physicalConfig, strataConfig, environmentalConfig,
      financialConfig, categoryApplies, categoryScore, factorDetails,
      roundingInput, hstrata]
    norm_num
